import Mathlib

/-!
Verification development for the slab sound-tools repository
(`slab/signals.py` and `slab/filter.py`).

Numeric matrices are modelled as lists of rows over a linear ordered field
`α` (instantiated at `ℚ` for exact concrete computations and at `ℝ` where the
source uses transcendental functions).  External numerical routines from
numpy/scipy that the source calls are modelled as follows:

* routines whose full numerics the claims depend on (`numpy.fft.rfftfreq`,
  `scipy.signal.lfilter` with denominator `[1]`, `numpy.interp`) are defined
  concretely from their documented semantics;
* the discrete Fourier transforms `numpy.fft.rfft` / `numpy.fft.irfft` and the
  FIR designers `scipy.signal.firwin` / `firwin2`, whose output values no claim
  inspects, are passed in as function parameters; facts about them that a claim
  needs (e.g. the documented output length `2*(n-1)` of `irfft` when no output
  length is requested) are stated as explicit hypotheses;
* numpy/scipy input-rank validation is modelled faithfully: `numpy.interp`,
  `numpy.convolve` and `scipy.signal.lfilter` require one-dimensional
  coefficient arrays and raise `ValueError: object too deep for desired array`
  when handed a two-dimensional array, which the source does in the pairwise
  and broadcast branches of `Filter.apply` (it passes the whole `[N x 1]` or
  `[N x k]` `self.data` instead of a column).

`scipy` is assumed importable (`have_scipy = True`), so `Filter.__init__`
never raises its ImportError and constructors are total.
-/

namespace Slab

/-- A numeric 2-D array, stored as a list of rows (numpy shape
`(rows, cols)`); `signals.py` stores signals as `[samples x channels]`. -/
abbrev Mat (α : Type) := List (List α)

/-- Errors raised by the python code or by the numpy/scipy routines it calls. -/
inductive PyErr where
  /-- `ValueError: Filter and signal have different sampling rates.` -/
  | rateMismatch
  /-- `ValueError: Number of filters must equal number of signal channels, ...` -/
  | shapeMismatch
  /-- `ValueError: object too deep for desired array`: a 2-D array was passed
  where numpy/scipy require a 1-D array (`numpy.interp` fp argument,
  `numpy.convolve` / `scipy.signal.lfilter` numerator). -/
  | objectTooDeep
  /-- `ValueError: could not broadcast input array from shape (m,) into shape (n,)`
  raised by a numpy slice assignment of mismatched length. -/
  | broadcastError
  /-- python `TypeError` (wrong argument type or unexpected keyword argument). -/
  | typeError
  /-- python `NameError` (use of an unbound local variable). -/
  | nameError
  deriving DecidableEq

/-- `shape[0]` of a matrix. -/
def rowsM {α : Type} (m : Mat α) : ℕ := m.length

/-- `shape[1]` of a (well-formed) matrix: the length of its first row. -/
def colsM {α : Type} (m : Mat α) : ℕ := (m.headD []).length

/-- All rows have the length recorded by `colsM` (numpy arrays are never
ragged). -/
def WellFormedM {α : Type} (m : Mat α) : Prop := ∀ r ∈ m, r.length = colsM m

/-- Column `j` of a matrix (`data[:, j]`), as a 1-D array. -/
def colv {α : Type} [Zero α] (m : Mat α) (j : ℕ) : List α :=
  m.map (fun r => r.getD j 0)

/-- Matrix transpose (`data.T`). -/
def transposeMat {α : Type} [Zero α] (m : Mat α) : Mat α :=
  (List.range (colsM m)).map (fun j => colv m j)

/-- Reassemble a matrix from a list of its columns (the column-by-column
assignments `out.data[:, i] = ...` of `filter.py`). -/
def matOfCols {α : Type} [Zero α] (cs : List (List α)) : Mat α :=
  (List.range ((cs.headD []).length)).map (fun i => cs.map (fun c => c.getD i 0))

/-- The 2-D branch of `Signal.__init__` (signals.py lines 127-130): a 2-D
array with `shape[1] > shape[0]` is silently replaced by its transpose. -/
def signalInit2 {α : Type} [Zero α] (m : Mat α) : Mat α :=
  if rowsM m < colsM m then transposeMat m else m

/-- The 1-D branch of `Signal.__init__`: a 1-D array of length n becomes an
`(n, 1)` column. -/
def signalInit1 {α : Type} (v : List α) : Mat α := v.map (fun x => [x])

/-- A `Signal`: a `[samples x channels]` matrix plus a samplerate. -/
structure Sig (α : Type) where
  data : Mat α
  samplerate : α
  deriving DecidableEq

/-- `Signal.nsamples`. -/
def Sig.nsamples {α : Type} (s : Sig α) : ℕ := rowsM s.data

/-- `Signal.nchannels`. -/
def Sig.nchannels {α : Type} (s : Sig α) : ℕ := colsM s.data

/-- `Signal.channel(n)` (signals.py lines 210-215): channel `n` as a new
1-channel signal. -/
def Sig.channel {α : Type} [Zero α] (s : Sig α) (n : ℕ) : Sig α :=
  ⟨signalInit1 (colv s.data n), s.samplerate⟩

/-- A `Filter`: a Signal whose matrix is `[taps_or_bins x filters]`, plus the
`fir` domain flag (filter.py `Filter.__init__`). -/
structure Filter (α : Type) where
  data : Mat α
  samplerate : α
  fir : Bool
  deriving DecidableEq

/-- `Filter.nfilters` (`= nchannels` of the underlying Signal). -/
def Filter.nfilters {α : Type} (f : Filter α) : ℕ := colsM f.data

/-- `Filter.ntaps` (`= nsamples` of the underlying Signal). -/
def Filter.ntaps {α : Type} (f : Filter α) : ℕ := rowsM f.data

/-- `Filter.nfrequencies` (`= nsamples`, for frequency-domain filters). -/
def Filter.nfrequencies {α : Type} (f : Filter α) : ℕ := rowsM f.data

/-- Construct a Filter from a 2-D array: `Filter.__init__` calls
`Signal.__init__`, which applies the transpose rule.  `have_scipy` is
modelled as true, so the `fir and not have_scipy` ImportError never fires. -/
def Filter.make {α : Type} [Zero α] (data : Mat α) (samplerate : α)
    (fir : Bool) : Filter α :=
  ⟨signalInit2 data, samplerate, fir⟩

/-- Construct a Filter from a 1-D array (used by `rectangular_filter`). -/
def Filter.make1 {α : Type} (data : List α) (samplerate : α)
    (fir : Bool) : Filter α :=
  ⟨signalInit1 data, samplerate, fir⟩

/-- `numpy.fft.rfftfreq(n, d=1/sr)`: the `n/2 + 1` real-FFT bin frequencies
`k*sr/n`. -/
def rfftfreq {α : Type} [DivisionRing α] (n : ℕ) (sr : α) : List α :=
  (List.range (n / 2 + 1)).map (fun k : ℕ => (k : α) * sr / (n : α))

/-- `scipy.signal.lfilter(b, [1], x, axis=0)` on a 1-D numerator `b` and one
signal column `x`: causal FIR filtering, `y i = sum_j b j * x (i - j)`,
output length equal to input length. -/
def lfilter1 {α : Type} [Semiring α] (b x : List α) : List α :=
  (List.range x.length).map (fun i =>
    (((List.range b.length).map
      (fun j => if j ≤ i then b.getD j 0 * x.getD (i - j) 0 else 0)).sum))

/-- `numpy.interp` at a single point: clamp to the edge values outside
`[xp.head, xp.last]`, linear interpolation on the segment containing `xi`
inside. -/
def interpAt {α : Type} [LinearOrderedField α] (xi : α) :
    List α → List α → α
  | x0 :: x1 :: xr, f0 :: f1 :: fr =>
    if xi ≤ x0 then f0
    else if xi ≤ x1 then f0 + (f1 - f0) * (xi - x0) / (x1 - x0)
    else interpAt xi (x1 :: xr) (f1 :: fr)
  | [_], f0 :: _ => f0
  | _, _ => 0

/-- `numpy.interp(x, xp, fp)` with 1-D `xp`, `fp`. -/
def npInterp {α : Type} [LinearOrderedField α] (x xp fp : List α) : List α :=
  x.map (fun xi => interpAt xi xp fp)

/-- `Filter.apply(self, sig)` (filter.py lines 95-133).

The real-FFT `rfftF : List α → List β` (`numpy.fft.rfft` of one column, `β`
standing for the complex spectrum type), the pointwise spectrum-by-gain
product `spmul` and the inverse transform `irfftF` (`numpy.fft.irfft` called
without an output-length argument) are parameters; no claim inspects their
values.  Branches in which the source hands a 2-D array to a routine that
requires a 1-D array are modelled by the `ValueError` those routines raise:

* `nfilters == nchannels` (FIR) and `nfilters == 1 and nchannels > 1` (FIR)
  pass the 2-D `self.data` as the numerator of `scipy.signal.lfilter`;
* `nfilters == 1 and nchannels > 1` (FFT) passes the 2-D `self.data` as the
  `fp` argument of `numpy.interp`.

A slice assignment `out.data[:, i] = v` with `len(v)` different from the
number of rows of `out.data` raises a broadcast `ValueError`. -/
def Filter.apply {α : Type} [LinearOrderedField α] [DecidableEq α] {β : Type}
    (rfftF : List α → List β) (spmul : β → α → β) (irfftF : List β → List α)
    (f : Filter α) (s : Sig α) : Except PyErr (Sig α) :=
  if f.samplerate ≠ s.samplerate ∧ f.samplerate ≠ 1 then
    .error .rateMismatch
  else if f.fir then
    if f.nfilters = s.nchannels then
      -- scipy.signal.lfilter(self.data, [1], out.data, axis=0):
      -- the numerator self.data is 2-D, lfilter requires a 1-D sequence
      .error .objectTooDeep
    else if f.nfilters = 1 ∧ 1 < s.nchannels then
      -- same 2-D numerator self.data
      .error .objectTooDeep
    else if 1 < f.nfilters ∧ s.nchannels = 1 then
      .ok ⟨matOfCols ((List.range f.nfilters).map
            (fun j => lfilter1 (colv f.data j) (colv s.data 0))),
          s.samplerate⟩
    else
      .error .shapeMismatch
  else
    let sigBins := rfftfreq s.nsamples s.samplerate
    let filtBins := rfftfreq (f.ntaps * 2 - 1) f.samplerate
    if f.nfilters = s.nchannels then
      let cols := (List.range s.nchannels).map (fun ch =>
        irfftF (List.zipWith spmul (rfftF (colv s.data ch))
          (npInterp sigBins filtBins (colv f.data ch))))
      if cols.all (fun c => c.length = s.nsamples) then
        .ok ⟨matOfCols cols, s.samplerate⟩
      else
        .error .broadcastError
    else if f.nfilters = 1 ∧ 1 < s.nchannels then
      -- numpy.interp(sig_freq_bins, filt_freq_bins, self.data):
      -- fp = self.data is 2-D, numpy.interp requires a 1-D sequence
      .error .objectTooDeep
    else if 1 < f.nfilters ∧ s.nchannels = 1 then
      let cols := (List.range f.nfilters).map (fun j =>
        irfftF (List.zipWith spmul (rfftF (colv s.data 0))
          (npInterp sigBins filtBins (colv f.data j))))
      if cols.all (fun c => c.length = s.nsamples) then
        .ok ⟨matOfCols cols, s.samplerate⟩
      else
        .error .broadcastError
    else
      .error .shapeMismatch

/-- `Filter.save` (filter.py lines 242-251): the persisted artifact, a single
numeric array made of a samplerate row and a domain-flag row (each value
broadcast over the `nfilters` columns) followed by the data matrix.  The
boolean `fir` flag is upcast to the numeric 1/0 by the concatenation. -/
def Filter.save {α : Type} [Zero α] [One α] (f : Filter α) : Mat α :=
  (List.replicate f.nfilters f.samplerate) ::
  (List.replicate f.nfilters (if f.fir then (1 : α) else 0)) :: f.data

/-- `Filter.load` (filter.py lines 253-262): read `samplerate` from entry
`[0][0]`, the domain flag from entry `[1][0]` (python `bool(x)`, i.e.
`x != 0`), drop the two header rows and rebuild through `Filter.__init__`. -/
def Filter.load {α : Type} [Zero α] [DecidableEq α] (a : Mat α) : Filter α :=
  Filter.make (a.drop 2) ((a.headD []).getD 0 0)
    (if (a.getD 1 []).getD 0 0 = 0 then false else true)

/-- `numpy.round` / python `round`: round half to even. -/
def roundHalfEven {α : Type} [LinearOrderedField α] [FloorRing α] (x : α) : ℤ :=
  if x - (⌊x⌋ : α) = 1 / 2 then (if ⌊x⌋ % 2 = 0 then ⌊x⌋ else ⌊x⌋ + 1)
  else round x

/-- Normalize a (possibly negative) python slice bound for a sequence of
length `n`. -/
def pySliceIdx (n : ℕ) (k : ℤ) : ℕ :=
  if k < 0 then ((n : ℤ) + k).toNat else min k.toNat n

/-- The documented parameters of `scipy.signal.firwin` (external scipy
interface: `firwin(numtaps, cutoff, width, window, pass_zero, scale, nyq,
fs)`); there is no parameter named `samplerate`. -/
def firwinKwargs : List String :=
  ["numtaps", "cutoff", "width", "window", "pass_zero", "scale", "nyq", "fs"]

/-- `Filter.rectangular_filter` (filter.py lines 54-93).  `frequency` is a
scalar (`lp`/`hp`) or a 2-tuple (`bp`/`notch`); `firwinF` stands for the
windowed-sinc design `scipy.signal.firwin` would compute, were the call
valid.  In the FIR branch the source calls
`scipy.signal.firwin(length, frequency, pass_zero=pass_zero, samplerate=samplerate)`;
python raises `NameError` when `kind` matches no case (the local
`pass_zero` is unbound at the call), and otherwise the call itself raises
`TypeError` because firwin has no keyword parameter named `samplerate`.
In the FFT branch the mask is built over the grid of resolution
`df = 1/(st*length)` with `st = 1/(samplerate/2)`; a slice bound is
`round(frequency/df)` with python banker's rounding, and indexing a scalar
edge frequency with `frequency[0]` raises `TypeError`. -/
def rectangularFilter {α : Type} [LinearOrderedField α] [FloorRing α]
    (firwinF : ℕ → (α ⊕ α × α) → Bool → α → List α)
    (frequency : α ⊕ α × α) (kind : String) (samplerate : Option α)
    (length : ℕ) (fir : Bool) : Except PyErr (Filter α) :=
  let sr := samplerate.getD 8000
  if fir then
    match (if kind = "lp" ∨ kind = "bs" then some true
           else if kind = "hp" ∨ kind = "bp" then some false else none) with
    | none => .error .nameError
    | some passZero =>
      if firwinKwargs.contains "samplerate" then
        .ok (Filter.make1 (firwinF length frequency passZero sr) sr fir)
      else
        .error .typeError
  else
    let df := sr / (2 * (length : α))
    (do
      let filt : List α ←
        if kind = "lp" then
          match frequency with
          | .inl fq => pure ((List.range length).map (fun i =>
              if i < pySliceIdx length (roundHalfEven (fq / df))
              then (1 : α) else 0))
          | .inr _ => .error .typeError
        else if kind = "hp" then
          match frequency with
          | .inl fq => pure ((List.range length).map (fun i =>
              if pySliceIdx length (roundHalfEven (fq / df)) ≤ i
              then (1 : α) else 0))
          | .inr _ => .error .typeError
        else if kind = "bp" then
          match frequency with
          | .inr fq => pure ((List.range length).map (fun i =>
              if pySliceIdx length (roundHalfEven (fq.1 / df)) ≤ i ∧
                 i < pySliceIdx length (roundHalfEven (fq.2 / df))
              then (1 : α) else 0))
          | .inl _ => .error .typeError
        else if kind = "notch" then
          match frequency with
          | .inr fq => pure ((List.range length).map (fun i =>
              if i < pySliceIdx length (roundHalfEven (fq.1 / df)) ∨
                 pySliceIdx length (roundHalfEven (fq.2 / df)) ≤ i
              then (1 : α) else 0))
          | .inl _ => .error .typeError
        else
          -- no branch matches: filt keeps its numpy.zeros(length) value
          pure (List.replicate length (0 : α))
      pure (Filter.make1 filt sr fir))

/-- `Filter._freq2erb` (filter.py lines 264-267). -/
noncomputable def freq2erb (f : ℝ) : ℝ :=
  9.265 * Real.log (1 + f / (24.7 * 9.265))

/-- `Filter._erb2freq` (filter.py lines 269-272). -/
noncomputable def erb2freq (e : ℝ) : ℝ :=
  24.7 * 9.265 * (Real.exp (e / 9.265) - 1)

/-- The `if not hi_lim: hi_lim = samplerate / 2` default of `cos_filterbank`
(python truthiness: both `None` and `0` select the default). -/
noncomputable def resolveHi (hi : Option ℝ) (sr : ℝ) : ℝ :=
  match hi with
  | none => sr / 2
  | some h => if h = 0 then sr / 2 else h

/-- `nfilters = int(numpy.round((h - l) / erb_spacing))` of `cos_filterbank`,
with `erb_spacing = freq2erb(1000*2**bandwidth) - freq2erb(1000)` the
ERB-unit step of `bandwidth` octaves at the 1000 Hz reference. -/
noncomputable def cfRawCount (bandwidth low hi : ℝ) : ℤ :=
  roundHalfEven ((freq2erb hi - freq2erb low) /
    (freq2erb (1000 * (2 : ℝ) ^ bandwidth) - freq2erb 1000))

/-- The actual ERB-unit step realized by
`linspace(l, h, nfilters, retstep=True)` in `cos_filterbank`:
`(h - l)/(nfilters - 1)`. -/
noncomputable def cfStep (bandwidth low hi : ℝ) : ℝ :=
  (freq2erb hi - freq2erb low) / ((cfRawCount bandwidth low hi : ℝ) - 1)

/-- Center frequency number `i` (in ERB units) of `cos_filterbank`: the
interior points `center_freqs[1:-1]` of the linspace layout. -/
noncomputable def cfCenter (bandwidth low hi : ℝ) (i : ℕ) : ℝ :=
  freq2erb low + ((i : ℝ) + 1) * cfStep bandwidth low hi

/-- Entry `(r, i)` of the `cos_filterbank` window matrix `filts`: the
half-cosine `cos((erb_bin - center)/(2*step) * pi)` on the open support
`(center - step, center + step)` around center `i`, evaluated at real-FFT
bin `r`, zero outside. -/
noncomputable def cfEntry (length : ℕ) (bandwidth low hi sr : ℝ)
    (r i : ℕ) : ℝ :=
  let fe := freq2erb ((rfftfreq length sr).getD r 0)
  let c := cfCenter bandwidth low hi i
  let step := cfStep bandwidth low hi
  if c - step < fe ∧ fe < c + step then
    Real.cos ((fe - c) / (2 * step) * Real.pi)
  else 0

/-- `Filter.cos_filterbank` (filter.py lines 166-205).  Returns the Filter
(built through `Filter.__init__`, hence `signalInit2`), the center
frequencies in Hz, and the realized bandwidth in octaves.
`linspace(l, h, nfilters, retstep=True)` yields the step `(h-l)/(nfilters-1)`
and the points `l + i*step`; the two endpoints are dropped
(`center_freqs[1:-1]`, `nfilters -= 2`).  The window matrix has
`length/2 + 1` rows (the real-FFT bins of the signal) and
`raw count - 2` columns. -/
noncomputable def cosFilterbank (length : ℕ) (bandwidth low_lim : ℝ)
    (hi_lim : Option ℝ) (samplerate : Option ℝ) :
    Filter ℝ × List ℝ × ℝ :=
  let sr := samplerate.getD 8000
  let hi := resolveHi hi_lim sr
  let nf : ℤ := cfRawCount bandwidth low_lim hi
  let filts : Mat ℝ := (List.range (length / 2 + 1)).map (fun r =>
    (List.range (nf - 2).toNat).map (cfEntry length bandwidth low_lim hi sr r))
  (Filter.make filts sr false,
   ((List.range (nf - 2).toNat).map (cfCenter bandwidth low_lim hi)).map
     erb2freq,
   Real.logb 2 (erb2freq (freq2erb 1000 + cfStep bandwidth low_lim hi) / 1000))

/-- `numpy.max` of a flat list (the list is nonempty in every use). -/
def maxList {α : Type} [LinearOrder α] [Zero α] (l : List α) : α :=
  match l with
  | [] => 0
  | x :: xs => xs.foldl max x

/-- `numpy.mean` of a flat list. -/
def meanList {α : Type} [DivisionRing α] (l : List α) : α :=
  l.sum / (l.length : α)

/-- `Filter.equalizing_filterbank` (filter.py lines 207-240).  The external
signal-container operations that are not part of this repository's sources
are parameters: `resampleF` (spec: `resample(rate) → container`) and
`levelF` (spec: `level → scalar-per-channel`), as is the least-squares FIR
designer `scipy.signal.firwin2`.  The side with the higher samplerate is
resampled down, a fixed cosine filterbank (length 1000, bandwidth 1/5) is
built at the common rate and applied to the played signal and to every
recorded channel, the per-band levels give
`amp_diffs = levels_in - levels_out - reference`, a zero-gain anchor is
added at 0 Hz and at Nyquist, and one 1000-tap filter per recorded channel
is designed. -/
noncomputable def equalizingFilterbank {β : Type}
    (rfftF : List ℝ → List β) (spmul : β → ℝ → β) (irfftF : List β → List ℝ)
    (resampleF : Sig ℝ → ℝ → Sig ℝ) (levelF : Sig ℝ → List ℝ)
    (firwin2F : ℕ → List ℝ → List ℝ → List ℝ)
    (playedSig recordedSig : Sig ℝ) (reference : String) :
    Except PyErr (Filter ℝ) :=
  let pr : Sig ℝ × Sig ℝ :=
    if recordedSig.samplerate < playedSig.samplerate then
      (resampleF playedSig recordedSig.samplerate, recordedSig)
    else
      (playedSig, resampleF recordedSig playedSig.samplerate)
  let played := pr.1
  let recorded := pr.2
  let fb := cosFilterbank 1000 (1 / 5) 0 none (some played.samplerate)
  do
    let appliedIn ← Filter.apply rfftF spmul irfftF fb.1 played
    let levelsIn := levelF appliedIn
    let levelsOut ← (List.range recorded.nchannels).mapM (fun idx => do
        let a ← Filter.apply rfftF spmul irfftF fb.1 (recorded.channel idx)
        pure (levelF a))
    let refLevel : ℝ ←
      if reference = "max" then pure (maxList levelsOut.flatten)
      else if reference = "mean" then pure (meanList levelsOut.flatten)
      else .error .typeError
    let freqs : List ℝ := 0 :: fb.2.1 ++ [played.samplerate / 2]
    let filt : Mat ℝ := matOfCols ((List.range recorded.nchannels).map
      (fun idx => firwin2F 1000 freqs
        (0 :: (List.zipWith (fun li lo => li - lo - refLevel) levelsIn
          (levelsOut.getD idx [])) ++ [0])))
    pure (Filter.make filt played.samplerate true)

/-! ### Helper lemmas -/

theorem rowsM_transposeMat {α : Type} [Zero α] (m : Mat α) :
    rowsM (transposeMat m) = colsM m := by
  simp [rowsM, transposeMat]

theorem colsM_transposeMat {α : Type} [Zero α] (m : Mat α) (h : 0 < colsM m) :
    colsM (transposeMat m) = rowsM m := by
  obtain ⟨k, hk⟩ : ∃ k, colsM m = k + 1 := ⟨colsM m - 1, by omega⟩
  unfold transposeMat colsM
  unfold colsM at hk
  rw [hk, List.range_succ_eq_map, List.map_cons, List.headD_cons]
  simp [colv, rowsM]

theorem npInterp_length {α : Type} [LinearOrderedField α] (x xp fp : List α) :
    (npInterp x xp fp).length = x.length :=
  List.length_map _ _

theorem rfftfreq_length {α : Type} [DivisionRing α] (n : ℕ) (sr : α) :
    (rfftfreq n sr).length = n / 2 + 1 := by
  unfold rfftfreq
  rw [List.length_map, List.length_range]

theorem signalInit2_shape {α : Type} [Zero α] (m : Mat α) :
    colsM (signalInit2 m) ≤ rowsM (signalInit2 m) := by
  unfold signalInit2
  by_cases h : rowsM m < colsM m
  · rw [if_pos h, rowsM_transposeMat, colsM_transposeMat m (by omega)]
    omega
  · rw [if_neg h]
    omega

/-! ### Claim theorems -/

/-- C1: the claim states that applying a single-filter bank (`nfilters = 1`)
to a multichannel signal filters every channel with that filter, in both
branches.  In fact both broadcast branches hand the 2-D `[ntaps x 1]`
`self.data` to a routine that requires a 1-D array (`scipy.signal.lfilter`
numerator in the FIR branch, `numpy.interp` fp in the FFT branch), which
raises `ValueError: object too deep for desired array`, so `apply` raises
instead of returning a signal: evaluation of the code at a single-filter
3-tap filter and a 4-sample 2-channel signal at the same samplerate, for
both domain flags and for any model of the Fourier transforms. -/
theorem C1_broadcast_branch_raises {β : Type} (rfftF : List ℚ → List β)
    (spmul : β → ℚ → β) (irfftF : List β → List ℚ) :
    Filter.apply rfftF spmul irfftF
      (⟨[[1], [0], [0]], 8000, true⟩ : Filter ℚ)
      ⟨[[1, 2], [3, 4], [5, 6], [7, 8]], 8000⟩ = .error .objectTooDeep ∧
    Filter.apply rfftF spmul irfftF
      (⟨[[1], [0], [0]], 8000, false⟩ : Filter ℚ)
      ⟨[[1, 2], [3, 4], [5, 6], [7, 8]], 8000⟩ = .error .objectTooDeep :=
  ⟨rfl, rfl⟩

/-- C3 counterexample: the claim says no rate error is raised when either of
the two samplerates is the sentinel 1.  Here the signal's samplerate is the
sentinel 1 and the filter's is 2, yet `apply` raises the rate-mismatch
error, because line 99 of filter.py only exempts the filter's samplerate:
`(self.samplerate != sig.samplerate) and (self.samplerate != 1)`. -/
theorem C3_counterexample :
    Filter.apply (fun v : List ℚ => v) (fun b a => b * a) (fun v => v)
      (⟨[[1]], 2, true⟩ : Filter ℚ) ⟨[[1], [2]], 1⟩ = .error .rateMismatch ∧
    (⟨[[1]], 2, true⟩ : Filter ℚ).samplerate ≠ (⟨[[1], [2]], 1⟩ : Sig ℚ).samplerate ∧
    (⟨[[1], [2]], 1⟩ : Sig ℚ).samplerate = 1 :=
  ⟨rfl, by decide, rfl⟩

/-- C3 (amended): `apply` raises the rate-mismatch error exactly when the
filter's and the signal's samplerates differ and the *filter's* samplerate
is not the rate-agnostic sentinel 1; the signal's samplerate being 1 does
not suppress the error. -/
theorem C3_amended {β : Type} (rfftF : List ℚ → List β) (spmul : β → ℚ → β)
    (irfftF : List β → List ℚ) (f : Filter ℚ) (s : Sig ℚ) :
    Filter.apply rfftF spmul irfftF f s = .error .rateMismatch ↔
      (f.samplerate ≠ s.samplerate ∧ f.samplerate ≠ 1) := by
  by_cases hc : f.samplerate ≠ s.samplerate ∧ f.samplerate ≠ 1
  · exact iff_of_true (by simp only [Filter.apply, if_pos hc]) hc
  · simp only [Filter.apply, if_neg hc]
    constructor
    · intro hx
      exfalso
      split_ifs at hx <;> simp_all
    · intro hx
      exact absurd hx hc

/-- C4: with compatible samplerates, a filter count different from the
channel count and neither count equal to 1, `apply` raises the
shape-mismatch error (and returns no signal), in the FIR branch and in the
frequency branch alike, for any model of the Fourier transforms. -/
theorem C4_shape_mismatch_raises {β : Type} (rfftF : List ℚ → List β)
    (spmul : β → ℚ → β) (irfftF : List β → List ℚ) (f : Filter ℚ) (s : Sig ℚ)
    (hrate : f.samplerate = s.samplerate ∨ f.samplerate = 1)
    (hf : f.nfilters ≠ 1) (hs : s.nchannels ≠ 1)
    (hne : f.nfilters ≠ s.nchannels) :
    Filter.apply rfftF spmul irfftF f s = .error .shapeMismatch := by
  have hc : ¬(f.samplerate ≠ s.samplerate ∧ f.samplerate ≠ 1) := by
    rcases hrate with h | h <;> simp [h]
  have h2 : ¬(f.nfilters = 1 ∧ 1 < s.nchannels) := fun h => hf h.1
  have h3 : ¬(1 < f.nfilters ∧ s.nchannels = 1) := fun h => hs h.2
  unfold Filter.apply
  rw [if_neg hc]
  cases hb : f.fir <;> simp [hb, hne, h2, h3]

/-- C4 witness: a 3-filter bank applied to a 2-channel signal of the same
samplerate raises the shape-mismatch error, in both domains. -/
theorem C4_shape_mismatch_witness :
    Filter.apply (fun v : List ℚ => v) (fun b a => b * a) (fun v => v)
      (⟨[[1, 1, 1], [2, 2, 2], [3, 3, 3]], 8000, true⟩ : Filter ℚ)
      ⟨[[1, 2], [3, 4]], 8000⟩ = .error .shapeMismatch ∧
    Filter.apply (fun v : List ℚ => v) (fun b a => b * a) (fun v => v)
      (⟨[[1, 1, 1], [2, 2, 2], [3, 3, 3]], 8000, false⟩ : Filter ℚ)
      ⟨[[1, 2], [3, 4]], 8000⟩ = .error .shapeMismatch :=
  ⟨C4_shape_mismatch_raises _ _ _ _ _ (Or.inl rfl) (by decide) (by decide)
      (by decide),
   C4_shape_mismatch_raises _ _ _ _ _ (Or.inl rfl) (by decide) (by decide)
      (by decide)⟩

/-- C10: any Filter built from a 2-D array through the constructor (hence
through `Signal.__init__`), and any filter rebuilt by `load`, stores a
matrix with at least as many rows as columns; when the input array has more
columns than rows it is silently replaced by its transpose (a bank with
more filters than taps or bins is reshaped, not kept or rejected). -/
theorem C10_construction_transposes {α : Type} [Zero α] [DecidableEq α]
    (m a : Mat α) (sr : α) (fir : Bool) :
    colsM (Filter.make m sr fir).data ≤ rowsM (Filter.make m sr fir).data ∧
    (rowsM m < colsM m → (Filter.make m sr fir).data = transposeMat m) ∧
    colsM (Filter.load a).data ≤ rowsM (Filter.load a).data := by
  refine ⟨signalInit2_shape m, fun h => ?_, signalInit2_shape (a.drop 2)⟩
  unfold Filter.make signalInit2
  rw [if_pos h]

/-- C6: for every Filter (at least one filter column, and the constructor
invariant `cols ≤ rows` of C10), `load (save f)` reproduces the data matrix,
the samplerate and the domain flag exactly, and the saved artifact is the
samplerate row and the 0/1 domain-flag row (each broadcast over the filter
columns) followed by the data. -/
theorem C6_save_load_roundtrip {α : Type} [LinearOrderedField α]
    [DecidableEq α] (f : Filter α)
    (hfc : 1 ≤ colsM f.data) (hcr : colsM f.data ≤ rowsM f.data) :
    Filter.load (Filter.save f) = f ∧
    Filter.save f = (List.replicate f.nfilters f.samplerate) ::
      (List.replicate f.nfilters (if f.fir then (1 : α) else 0)) :: f.data := by
  refine ⟨?_, rfl⟩
  obtain ⟨d, sr, fi⟩ := f
  dsimp only at hfc hcr
  obtain ⟨k, hk⟩ : ∃ k, colsM d = k + 1 := ⟨colsM d - 1, by omega⟩
  unfold Filter.load Filter.save Filter.make Filter.nfilters
  dsimp only
  rw [hk]
  simp only [List.replicate_succ, List.drop_succ_cons, List.drop_zero,
    List.headD_cons, List.getD_cons_succ, List.getD_cons_zero]
  have hinit : signalInit2 d = d := by
    unfold signalInit2
    rw [if_neg (by omega)]
  rw [hinit]
  cases fi <;> simp

/-- C6 witness: a concrete FIR filter with 3 taps and 2 filter columns
round-trips through save and load. -/
theorem C6_save_load_roundtrip_witness :
    Filter.load (Filter.save (⟨[[1, 2], [3, 4], [5, 6]], 44100, true⟩ : Filter ℚ))
      = (⟨[[1, 2], [3, 4], [5, 6]], 44100, true⟩ : Filter ℚ) ∧
    1 ≤ colsM (⟨[[1, 2], [3, 4], [5, 6]], 44100, true⟩ : Filter ℚ).data ∧
    colsM (⟨[[1, 2], [3, 4], [5, 6]], 44100, true⟩ : Filter ℚ).data ≤
      rowsM (⟨[[1, 2], [3, 4], [5, 6]], 44100, true⟩ : Filter ℚ).data :=
  ⟨(C6_save_load_roundtrip _ (by decide) (by decide)).1, by decide, by decide⟩

/-- C2: the claim asserts that applying an `F`-filter bank to a 1-channel
signal succeeds with `F` output channels of the input's length even for an
odd number of samples.  In the frequency branch `numpy.fft.irfft` is called
without its output-length argument, so (as documented by numpy) it returns
`2*(K-1)` samples from a `K`-bin spectrum, i.e. `n - 1` samples for an
odd-length input, and the column assignment `out.data[:, filt] = ...`
raises a broadcast `ValueError` instead of succeeding: evaluation of the
code at a 2-filter frequency-domain bank and a 3-sample 1-channel signal,
for every transform model with numpy's documented output lengths
(`rfft`: `n/2 + 1` bins, `irfft`: `2*(K-1)` samples). -/
theorem C2_fanout_freq_odd_length_raises {β : Type}
    (rfftF : List ℚ → List β) (spmul : β → ℚ → β) (irfftF : List β → List ℚ)
    (hrfft : (rfftF [1, 0, 0]).length = 2)
    (hirfft : ∀ w, (irfftF w).length = 2 * (w.length - 1)) :
    Filter.apply rfftF spmul irfftF
      (⟨[[1, 1], [1, 1], [1, 1]], 8000, false⟩ : Filter ℚ)
      ⟨[[1], [0], [0]], 8000⟩ = .error .broadcastError := by
  have hlen : ∀ fp : List ℚ, (irfftF (List.zipWith spmul (rfftF [1, 0, 0])
      (npInterp (rfftfreq 3 (8000 : ℚ)) (rfftfreq 5 (8000 : ℚ)) fp))).length
      = 2 := by
    intro fp
    rw [hirfft, List.length_zipWith, hrfft, npInterp_length, rfftfreq_length]
    rfl
  show (if ([irfftF (List.zipWith spmul (rfftF [1, 0, 0])
          (npInterp (rfftfreq 3 (8000 : ℚ)) (rfftfreq 5 (8000 : ℚ)) [1, 1, 1])),
        irfftF (List.zipWith spmul (rfftF [1, 0, 0])
          (npInterp (rfftfreq 3 (8000 : ℚ)) (rfftfreq 5 (8000 : ℚ)) [1, 1, 1]))].all
        (fun c => c.length = 3)) = true then
      Except.ok (⟨matOfCols [irfftF (List.zipWith spmul (rfftF [1, 0, 0])
          (npInterp (rfftfreq 3 (8000 : ℚ)) (rfftfreq 5 (8000 : ℚ)) [1, 1, 1])),
        irfftF (List.zipWith spmul (rfftF [1, 0, 0])
          (npInterp (rfftfreq 3 (8000 : ℚ)) (rfftfreq 5 (8000 : ℚ))
            [1, 1, 1]))], 8000⟩ : Sig ℚ)
    else Except.error PyErr.broadcastError) = Except.error PyErr.broadcastError
  rw [if_neg]
  simp [hlen]

/-- C2 witness: the failing evaluation instantiated with concrete transform
models having numpy's documented output lengths. -/
theorem C2_fanout_freq_odd_length_witness :
    Filter.apply (fun v : List ℚ => List.replicate (v.length / 2 + 1) (0 : ℚ))
      (fun b a => b * a)
      (fun w => List.replicate (2 * (w.length - 1)) (0 : ℚ))
      (⟨[[1, 1], [1, 1], [1, 1]], 8000, false⟩ : Filter ℚ)
      ⟨[[1], [0], [0]], 8000⟩ = .error .broadcastError :=
  C2_fanout_freq_odd_length_raises _ _ _ (by decide)
    (fun w => by rw [List.length_replicate])

/-- C7: the claim says the `fir = false` branch produces a bandstop mask
(complement of the band set to 1) for the bandstop kind.  The function's
docstring names the bandstop kind `'bs'`, but the mask branch tests
`kind == 'notch'`, so `kind='bs'` matches no case and the returned filter
is the all-zero mask: evaluation of the code at
`frequency=(1000, 2000), kind='bs', samplerate=8000, length=8, fir=False`,
together with the evaluation at `kind='notch'` showing the mask the claim
describes (1 outside the band, 0 inside) under the other name. -/
theorem C7_bs_kind_yields_zero_mask :
    rectangularFilter (fun _ _ _ _ => []) (.inr ((1000 : ℚ), 2000)) "bs"
      (some 8000) 8 false =
      .ok (Filter.make1 (List.replicate 8 (0 : ℚ)) 8000 false) ∧
    rectangularFilter (fun _ _ _ _ => []) (.inr ((1000 : ℚ), 2000)) "notch"
      (some 8000) 8 false =
      .ok (Filter.make1 [1, 1, 0, 0, 1, 1, 1, 1] (8000 : ℚ) false) := by
  constructor
  · rfl
  · have h1 : pySliceIdx 8
        (roundHalfEven ((1000 : ℚ) / ((8000 : ℚ) / (2 * ((8 : ℕ) : ℚ))))) = 2 := by
      norm_num [roundHalfEven, pySliceIdx]
      rfl
    have h2 : pySliceIdx 8
        (roundHalfEven ((2000 : ℚ) / ((8000 : ℚ) / (2 * ((8 : ℕ) : ℚ))))) = 4 := by
      norm_num [roundHalfEven, pySliceIdx]
      rfl
    show Except.ok (Filter.make1 ((List.range 8).map (fun i =>
        if i < pySliceIdx 8
            (roundHalfEven ((1000 : ℚ) / ((8000 : ℚ) / (2 * ((8 : ℕ) : ℚ))))) ∨
           pySliceIdx 8
            (roundHalfEven ((2000 : ℚ) / ((8000 : ℚ) / (2 * ((8 : ℕ) : ℚ))))) ≤ i
        then (1 : ℚ) else 0)) 8000 false) =
      Except.ok (Filter.make1 [1, 1, 0, 0, 1, 1, 1, 1] (8000 : ℚ) false)
    rw [h1, h2]
    rfl

/-- C8: the claim says FIR construction succeeds whenever scipy is
available.  The FIR branch calls
`scipy.signal.firwin(length, frequency, pass_zero=pass_zero, samplerate=samplerate)`,
but `firwin`'s documented parameters are
`numtaps, cutoff, width, window, pass_zero, scale, nyq, fs` - there is no
`samplerate` keyword - so with scipy importable the call raises `TypeError`
for every valid kind instead of returning a Filter: evaluation of the code
at a lowpass and at a highpass request. -/
theorem C8_fir_design_call_raises :
    rectangularFilter (fun _ _ _ _ => []) (.inl (1000 : ℚ)) "lp" (some 8000)
      1000 true = .error .typeError ∧
    rectangularFilter (fun _ _ _ _ => []) (.inl (1000 : ℚ)) "hp" (some 8000)
      1000 true = .error .typeError := by
  constructor <;> rfl

/-! ### Real-analytic helper lemmas for the ERB filterbank claims -/

theorem roundHalfEven_intCast {α : Type} [LinearOrderedField α] [FloorRing α]
    (n : ℤ) : roundHalfEven ((n : α)) = n := by
  unfold roundHalfEven
  rw [Int.floor_intCast, if_neg (by norm_num), round_intCast]

theorem floor_le_roundHalfEven {α : Type} [LinearOrderedField α] [FloorRing α]
    (x : α) : ⌊x⌋ ≤ roundHalfEven x := by
  unfold roundHalfEven
  split
  · split
    · exact le_refl _
    · omega
  · rw [round_eq]
    exact Int.floor_le_floor (by linarith)

theorem le_roundHalfEven {α : Type} [LinearOrderedField α] [FloorRing α]
    (n : ℤ) (x : α) (h : (n : α) ≤ x) : n ≤ roundHalfEven x :=
  le_trans (Int.le_floor.mpr h) (floor_le_roundHalfEven x)

theorem freq2erb_zero : freq2erb 0 = 0 := by
  unfold freq2erb
  norm_num

theorem freq2erb_sub_eq_log (a b : ℝ) (ha : 0 ≤ a) (hb : 0 ≤ b) :
    freq2erb a - freq2erb b =
      9.265 * Real.log ((24.7 * 9.265 + a) / (24.7 * 9.265 + b)) := by
  have h1 : (0 : ℝ) < 1 + a / (24.7 * 9.265) := by positivity
  have h2 : (0 : ℝ) < 1 + b / (24.7 * 9.265) := by positivity
  unfold freq2erb
  rw [← mul_sub, ← Real.log_div (ne_of_gt h1) (ne_of_gt h2)]
  congr 2
  rw [div_eq_div_iff (ne_of_gt h2) (by positivity)]
  field_simp

theorem one_lt_two_rpow (y : ℝ) (hy : 0 < y) : 1 < (2 : ℝ) ^ y :=
  (Real.one_lt_rpow_iff_of_pos (by norm_num)).mpr (Or.inl ⟨by norm_num, hy⟩)

theorem two_rpow_one_div_le (n : ℕ) (b : ℝ) (hn : n ≠ 0) (hb : 0 ≤ b)
    (h : 2 ≤ b ^ n) : (2 : ℝ) ^ ((1 : ℝ) / (n : ℝ)) ≤ b := by
  refine le_of_pow_le_pow_left₀ hn hb ?_
  have hpow : ((2 : ℝ) ^ ((1 : ℝ) / (n : ℝ))) ^ n = 2 := by
    rw [← Real.rpow_natCast ((2 : ℝ) ^ ((1 : ℝ) / (n : ℝ))) n,
        ← Real.rpow_mul (by norm_num),
        one_div_mul_cancel (Nat.cast_ne_zero.mpr hn), Real.rpow_one]
  rw [hpow]
  exact h

/-- Lower bound on the raw rounded filter count of `cos_filterbank` with
`low_lim = 0`, from a lower bound `Alo` on the log at the high limit and an
upper bound `Bub` on the ERB step divided by 9.265. -/
theorem le_cfRawCount (bw hi tb Alo Bub : ℝ) (n : ℤ) (_hhi : 0 ≤ hi)
    (ht1 : 1 < (2 : ℝ) ^ bw) (htb : (2 : ℝ) ^ bw ≤ tb)
    (hA : Alo ≤ Real.log (1 + hi / (24.7 * 9.265))) (hAlo : 0 ≤ Alo)
    (hBub : (1000 * tb - 1000) / (24.7 * 9.265 + 1000) ≤ Bub)
    (_hBpos : 0 < Bub) (hn : (n : ℝ) ≤ Alo / Bub) :
    n ≤ cfRawCount bw 0 hi := by
  have hc : (0 : ℝ) < 24.7 * 9.265 := by norm_num
  set t : ℝ := (2 : ℝ) ^ bw with hts
  have ht0 : (0 : ℝ) ≤ 1000 * t := by positivity
  have hr1 : (1 : ℝ) <
      (24.7 * 9.265 + 1000 * t) / (24.7 * 9.265 + 1000) := by
    rw [lt_div_iff₀ (by norm_num)]
    nlinarith
  have hrpos : (0 : ℝ) <
      (24.7 * 9.265 + 1000 * t) / (24.7 * 9.265 + 1000) :=
    lt_trans one_pos hr1
  have hlogpos : 0 < Real.log
      ((24.7 * 9.265 + 1000 * t) / (24.7 * 9.265 + 1000)) :=
    Real.log_pos hr1
  have hlogub : Real.log
      ((24.7 * 9.265 + 1000 * t) / (24.7 * 9.265 + 1000)) ≤ Bub := by
    refine le_trans (Real.log_le_sub_one_of_pos hrpos) (le_trans ?_ hBub)
    rw [div_sub_one (by norm_num), div_le_div_iff₀ (by norm_num) (by norm_num)]
    nlinarith
  unfold cfRawCount
  refine le_roundHalfEven n _ ?_
  rw [freq2erb_sub_eq_log (1000 * t) 1000 ht0 (by norm_num), freq2erb_zero,
    sub_zero]
  have hnum : freq2erb hi = 9.265 * Real.log (1 + hi / (24.7 * 9.265)) := rfl
  rw [hnum, mul_div_mul_left _ _ (by norm_num : (9.265 : ℝ) ≠ 0)]
  refine le_trans hn ?_
  exact div_le_div₀ (le_trans hAlo hA) hA hlogpos hlogub

theorem colsM_rangeMap {α : Type} (n m : ℕ) (g : ℕ → ℕ → α) (hn : 0 < n) :
    colsM ((List.range n).map
      (fun r => (List.range m).map (g r))) = m := by
  obtain ⟨k, hk⟩ : ∃ k, n = k + 1 := ⟨n - 1, by omega⟩
  subst hk
  rw [List.range_succ_eq_map, List.map_cons]
  unfold colsM
  rw [List.headD_cons, List.length_map, List.length_range]

theorem colsM_signalInit2_rangeMap {α : Type} [Zero α] (n m : ℕ)
    (g : ℕ → ℕ → α) (hn : 0 < n) :
    colsM (signalInit2 ((List.range n).map
      (fun r => (List.range m).map (g r)))) = if n < m then n else m := by
  have hr : rowsM ((List.range n).map
      (fun r => (List.range m).map (g r))) = n := by
    unfold rowsM
    rw [List.length_map, List.length_range]
  have hc : colsM ((List.range n).map
      (fun r => (List.range m).map (g r))) = m := colsM_rangeMap n m g hn
  unfold signalInit2
  rw [hr, hc]
  split
  · rw [colsM_transposeMat _ (by omega), hr]
  · exact hc

/-- The filter count actually stored by `cos_filterbank`: the window matrix
has `length/2 + 1` rows and `raw count - 2` columns, and `Signal.__init__`
transposes it when the column count exceeds the row count. -/
theorem cosFilterbank_nfilters (length : ℕ) (bandwidth low : ℝ)
    (hi : Option ℝ) (sro : Option ℝ) :
    (cosFilterbank length bandwidth low hi sro).1.nfilters =
      if length / 2 + 1 <
          (cfRawCount bandwidth low (resolveHi hi (sro.getD 8000)) - 2).toNat
      then length / 2 + 1
      else (cfRawCount bandwidth low (resolveHi hi (sro.getD 8000)) - 2).toNat := by
  unfold cosFilterbank Filter.make Filter.nfilters
  exact colsM_signalInit2_rangeMap (length / 2 + 1)
    ((cfRawCount bandwidth low (resolveHi hi (sro.getD 8000)) - 2).toNat)
    (cfEntry length bandwidth low (resolveHi hi (sro.getD 8000)) (sro.getD 8000))
    (by omega)

/-- C5 counterexample: at `length=4, bandwidth=1/3, low_lim=0`, default
`hi_lim` (22050) and `samplerate=44100`, the rounded count
`round((erb(hi)-erb(lo))/step)` is at least 3 (indeed at least 18), yet the
returned filter's column count is not `count - 2`: the window matrix has
only `4/2 + 1 = 3` rows, so `Signal.__init__` silently transposes it and
`nfilters` collapses to 3. -/
theorem C5_counterexample :
    3 ≤ cfRawCount (1 / 3) 0 22050 ∧
    ((cosFilterbank 4 (1 / 3) 0 none (some 44100)).1.nfilters : ℤ) ≠
      cfRawCount (1 / 3) 0 22050 - 2 := by
  have ht1 : 1 < (2 : ℝ) ^ ((1 : ℝ) / 3) := one_lt_two_rpow _ (by norm_num)
  have htb : (2 : ℝ) ^ ((1 : ℝ) / 3) ≤ 1.26 := by
    have h := two_rpow_one_div_le 3 1.26 (by norm_num) (by norm_num)
      (by norm_num)
    norm_num at h ⊢
    exact h
  have hA : (4 : ℝ) ≤ Real.log (1 + 22050 / (24.7 * 9.265)) := by
    rw [Real.le_log_iff_exp_le (by norm_num)]
    have h4 : Real.exp 4 = Real.exp 1 ^ 4 := by
      rw [show (4 : ℝ) = ((4 : ℕ) : ℝ) * 1 by norm_num, Real.exp_nat_mul]
    rw [h4]
    calc Real.exp 1 ^ 4 ≤ 2.7182818286 ^ 4 :=
          pow_le_pow_left₀ (Real.exp_pos 1).le Real.exp_one_lt_d9.le 4
      _ ≤ 1 + 22050 / (24.7 * 9.265) := by norm_num
  have h18 : (18 : ℤ) ≤ cfRawCount (1 / 3) 0 22050 :=
    le_cfRawCount (1 / 3) 22050 1.26 4 0.212 18 (by norm_num) ht1 htb hA
      (by norm_num) (by norm_num) (by norm_num) (by push_cast; norm_num)
  refine ⟨by omega, ?_⟩
  have hchar := cosFilterbank_nfilters 4 (1 / 3) 0 none (some 44100)
  have hres : resolveHi none ((some (44100 : ℝ)).getD 8000) = 22050 := by
    unfold resolveHi
    norm_num
  rw [hres] at hchar
  rw [hchar, if_pos (by omega)]
  omega

/-- C5 (amended): whenever the rounded count
`nf = round((erb(hi_lim) - erb(low_lim))/step)` is at least 3 *and*
`nf - 2` does not exceed the `length/2 + 1` window rows (so that the
constructor does not transpose the matrix), `cos_filterbank` returns a
frequency-domain Filter with exactly `nf - 2` filter columns whose center
frequencies are the interior points of the even ERB-unit spacing between
`erb(low_lim)` and `erb(hi_lim)`, mapped back to Hz; when `nf - 2` exceeds
the row count the stored matrix is the transpose and `nfilters` is
`length/2 + 1` instead (see the counterexample). -/
theorem C5_amended (length : ℕ) (bandwidth low_lim : ℝ)
    (hi_lim samplerate : Option ℝ) (nf : ℤ)
    (hnf : nf = cfRawCount bandwidth low_lim
      (resolveHi hi_lim (samplerate.getD 8000)))
    (h3 : 3 ≤ nf) (hfit : (nf - 2).toNat ≤ length / 2 + 1) :
    (cosFilterbank length bandwidth low_lim hi_lim samplerate).1.nfilters =
      (nf - 2).toNat ∧
    (cosFilterbank length bandwidth low_lim hi_lim samplerate).1.fir
      = false ∧
    (cosFilterbank length bandwidth low_lim hi_lim samplerate).2.1 =
      ((List.range (nf - 2).toNat).map (fun i : ℕ =>
        freq2erb low_lim + ((i : ℝ) + 1) *
          ((freq2erb (resolveHi hi_lim (samplerate.getD 8000)) -
              freq2erb low_lim) / ((nf : ℝ) - 1)))).map erb2freq := by
  subst hnf
  refine ⟨?_, rfl, rfl⟩
  rw [cosFilterbank_nfilters, if_neg (by omega)]

/-- C5 witness: with `bandwidth = log2 3` (so the reference step is
`erb(3000) - erb(1000)`) and `hi_lim` chosen so that the ERB range is
exactly three steps, the rounded count is exactly 3 and `cos_filterbank`
returns a single filter. -/
theorem C5_amended_witness :
    (3 : ℤ) = cfRawCount (Real.logb 2 3) 0
      (resolveHi (some (24.7 * 9.265 *
        (((24.7 * 9.265 + 3000) / (24.7 * 9.265 + 1000)) ^ (3 : ℕ) - 1)))
        ((some (8000 : ℝ)).getD 8000)) ∧
    (cosFilterbank 4 (Real.logb 2 3) 0
      (some (24.7 * 9.265 *
        (((24.7 * 9.265 + 3000) / (24.7 * 9.265 + 1000)) ^ (3 : ℕ) - 1)))
      (some 8000)).1.nfilters = ((3 : ℤ) - 2).toNat := by
  have hres : resolveHi (some (24.7 * 9.265 *
      (((24.7 * 9.265 + 3000) / (24.7 * 9.265 + 1000)) ^ (3 : ℕ) - 1)))
      ((some (8000 : ℝ)).getD 8000) = 24.7 * 9.265 *
      (((24.7 * 9.265 + 3000) / (24.7 * 9.265 + 1000)) ^ (3 : ℕ) - 1) := by
    simp only [resolveHi]
    rw [if_neg (by norm_num)]
  have hlogr : 0 < Real.log ((24.7 * 9.265 + 3000) / (24.7 * 9.265 + 1000)) :=
    Real.log_pos (by norm_num)
  have hkey : cfRawCount (Real.logb 2 3) 0
      (24.7 * 9.265 *
        (((24.7 * 9.265 + 3000) / (24.7 * 9.265 + 1000)) ^ (3 : ℕ) - 1))
      = 3 := by
    unfold cfRawCount
    rw [freq2erb_zero, sub_zero]
    rw [Real.rpow_logb (by norm_num) (by norm_num) (by norm_num)]
    rw [show (1000 : ℝ) * 3 = 3000 by norm_num]
    rw [freq2erb_sub_eq_log 3000 1000 (by norm_num) (by norm_num)]
    have hnum : freq2erb (24.7 * 9.265 *
        (((24.7 * 9.265 + 3000) / (24.7 * 9.265 + 1000)) ^ (3 : ℕ) - 1)) =
        9.265 * (3 * Real.log ((24.7 * 9.265 + 3000) / (24.7 * 9.265 + 1000)))
        := by
      unfold freq2erb
      rw [show (1 : ℝ) + 24.7 * 9.265 *
          (((24.7 * 9.265 + 3000) / (24.7 * 9.265 + 1000)) ^ (3 : ℕ) - 1) /
            (24.7 * 9.265) =
          ((24.7 * 9.265 + 3000) / (24.7 * 9.265 + 1000)) ^ (3 : ℕ) by
        field_simp
        ring]
      rw [Real.log_pow]
      push_cast
      ring
    rw [hnum, mul_div_mul_left _ _ (by norm_num : (9.265 : ℝ) ≠ 0),
      mul_div_assoc, div_self (ne_of_gt hlogr), mul_one]
    rw [show (3 : ℝ) = ((3 : ℤ) : ℝ) by norm_num, roundHalfEven_intCast]
  constructor
  · rw [hres, hkey]
  · exact (C5_amended 4 (Real.logb 2 3) 0 _ _ 3 (by rw [hres, hkey])
      (by norm_num) (by decide)).1

theorem apply_freq_fanout_error {β : Type} (rfftF : List ℝ → List β)
    (spmul : β → ℝ → β) (irfftF : List β → List ℝ) (f : Filter ℝ)
    (hsr : f.samplerate = 8000) (hfir : f.fir = false) (hnf : 2 ≤ f.nfilters)
    (hrfft : ∀ v, (rfftF v).length = v.length / 2 + 1)
    (hirfft : ∀ w, (irfftF w).length = 2 * (w.length - 1)) :
    Filter.apply rfftF spmul irfftF f (⟨[[1], [0], [0]], 8000⟩ : Sig ℝ) =
      .error .broadcastError := by
  obtain ⟨d, sr, fi⟩ := f
  dsimp only at hsr hfir
  dsimp only [Filter.nfilters] at hnf
  subst hsr
  subst hfir
  have hne1 : colsM d ≠ 1 := by omega
  have hgt : 1 < colsM d := by omega
  obtain ⟨k, hk⟩ : ∃ k, colsM d = k + 2 := ⟨colsM d - 2, by omega⟩
  have hlen : ∀ j, (irfftF (List.zipWith spmul
      (rfftF (colv ([[1], [0], [0]] : Mat ℝ) 0))
      (npInterp (rfftfreq 3 (8000 : ℝ)) (rfftfreq (rowsM d * 2 - 1) (8000 : ℝ))
        (colv d j)))).length = 2 := by
    intro j
    rw [hirfft, List.length_zipWith, hrfft, npInterp_length, rfftfreq_length]
    simp [colv]
  have hch : Sig.nchannels (⟨[[1], [0], [0]], 8000⟩ : Sig ℝ) = 1 := rfl
  have hns : Sig.nsamples (⟨[[1], [0], [0]], 8000⟩ : Sig ℝ) = 3 := rfl
  have hsd : Sig.data (⟨[[1], [0], [0]], 8000⟩ : Sig ℝ) = [[1], [0], [0]] := rfl
  have hss : Sig.samplerate (⟨[[1], [0], [0]], 8000⟩ : Sig ℝ) = 8000 := rfl
  have hfn : Filter.nfilters (⟨d, (8000 : ℝ), false⟩ : Filter ℝ) = colsM d := rfl
  have hft : Filter.ntaps (⟨d, (8000 : ℝ), false⟩ : Filter ℝ) = rowsM d := rfl
  have hfd : Filter.data (⟨d, (8000 : ℝ), false⟩ : Filter ℝ) = d := rfl
  have hfs : Filter.samplerate (⟨d, (8000 : ℝ), false⟩ : Filter ℝ) = 8000 := rfl
  have hff : Filter.fir (⟨d, (8000 : ℝ), false⟩ : Filter ℝ) = false := rfl
  simp only [Filter.apply]
  simp [hch, hns, hsd, hss, hfn, hft, hfd, hfs, hff, hne1, hgt, hk,
    List.range_succ, hlen]

/-- C9: the claim says `equalizing_filterbank` returns an FIR Filter for
every played/recorded signal pair.  The level measurement
`fbank.apply(played_signal).level` goes through the frequency-domain
fan-out branch of `apply`, which calls `numpy.fft.irfft` without an output
length; for an odd-length played signal the inverse transform returns
`n - 1` samples and the column assignment raises, so no Filter is
returned: evaluation of the code at a 3-sample played/recorded pair at
8000 Hz, for every model of the external resampler, level measure and
`firwin2`, and every transform model with numpy's documented output
lengths. -/
theorem C9_equalizing_odd_length_raises {β : Type}
    (rfftF : List ℝ → List β) (spmul : β → ℝ → β) (irfftF : List β → List ℝ)
    (resampleF : Sig ℝ → ℝ → Sig ℝ) (levelF : Sig ℝ → List ℝ)
    (firwin2F : ℕ → List ℝ → List ℝ → List ℝ)
    (hrfft : ∀ v, (rfftF v).length = v.length / 2 + 1)
    (hirfft : ∀ w, (irfftF w).length = 2 * (w.length - 1)) :
    equalizingFilterbank rfftF spmul irfftF resampleF levelF firwin2F
      (⟨[[1], [0], [0]], 8000⟩ : Sig ℝ) (⟨[[1], [0], [0]], 8000⟩ : Sig ℝ)
      "max" = .error .broadcastError := by
  have hres : resolveHi none ((some (8000 : ℝ)).getD 8000) = 4000 := by
    simp only [resolveHi, Option.getD_some]
    norm_num
  have ht1 : 1 < (2 : ℝ) ^ ((1 : ℝ) / 5) := one_lt_two_rpow _ (by norm_num)
  have htb : (2 : ℝ) ^ ((1 : ℝ) / 5) ≤ 1.149 := by
    have h := two_rpow_one_div_le 5 1.149 (by norm_num) (by norm_num)
      (by norm_num)
    norm_num at h ⊢
    exact h
  have hA : (2.07 : ℝ) ≤ Real.log (1 + 4000 / (24.7 * 9.265)) := by
    have h8 : Real.log 8 ≤ Real.log (1 + 4000 / (24.7 * 9.265)) :=
      Real.log_le_log (by norm_num) (by norm_num)
    refine le_trans ?_ h8
    rw [show (8 : ℝ) = 2 ^ (3 : ℕ) by norm_num, Real.log_pow]
    have := Real.log_two_gt_d9
    push_cast
    nlinarith
  have h6 : (6 : ℤ) ≤ cfRawCount (1 / 5) 0 4000 :=
    le_cfRawCount (1 / 5) 4000 1.149 2.07 0.13 6 (by norm_num) ht1 htb hA
      (by norm_num) (by norm_num) (by norm_num) (by push_cast; norm_num)
  have hnf2 : 2 ≤ (cosFilterbank 1000 (1 / 5) 0 none (some 8000)).1.nfilters
      := by
    rw [cosFilterbank_nfilters, hres]
    split <;> omega
  have happly := apply_freq_fanout_error rfftF spmul irfftF
    (cosFilterbank 1000 (1 / 5) 0 none (some 8000)).1 rfl rfl hnf2 hrfft
    hirfft
  simp only [equalizingFilterbank]
  rw [if_neg (by simp)]
  dsimp only
  rw [happly]
  rfl

/-- C9 witness: the failing evaluation instantiated with concrete models of
the external routines (identity resampler, empty level list, zero
transforms with numpy's documented output lengths). -/
theorem C9_equalizing_odd_length_witness :
    equalizingFilterbank
      (fun v : List ℝ => List.replicate (v.length / 2 + 1) (0 : ℝ))
      (fun b a => b * a)
      (fun w => List.replicate (2 * (w.length - 1)) (0 : ℝ))
      (fun s _ => s) (fun _ => []) (fun _ _ _ => [])
      (⟨[[1], [0], [0]], 8000⟩ : Sig ℝ) (⟨[[1], [0], [0]], 8000⟩ : Sig ℝ)
      "max" = .error .broadcastError :=
  C9_equalizing_odd_length_raises _ _ _ _ _ _
    (fun v => by rw [List.length_replicate])
    (fun w => by rw [List.length_replicate])

/-- C3 (amended) witness: the characterization evaluated at a concrete
filter with samplerate 2 and a concrete signal with samplerate 1. -/
theorem C3_amended_witness :
    Filter.apply (fun v : List ℚ => v) (fun b a => b * a) (fun v => v)
      (⟨[[1]], 2, true⟩ : Filter ℚ) ⟨[[1], [2]], 1⟩ = .error .rateMismatch ↔
      ((2 : ℚ) ≠ 1 ∧ (2 : ℚ) ≠ 1) :=
  C3_amended (fun v : List ℚ => v) (fun b a => b * a) (fun v => v)
    ⟨[[1]], 2, true⟩ ⟨[[1], [2]], 1⟩

/-- C10 witness: a 1-row, 3-column array is stored transposed, and the
stored matrix satisfies the row/column invariant. -/
theorem C10_construction_transposes_witness :
    (Filter.make ([[1, 2, 3]] : Mat ℚ) 8000 true).data =
      transposeMat ([[1, 2, 3]] : Mat ℚ) ∧
    rowsM ([[1, 2, 3]] : Mat ℚ) < colsM ([[1, 2, 3]] : Mat ℚ) ∧
    colsM (Filter.make ([[1, 2, 3]] : Mat ℚ) 8000 true).data ≤
      rowsM (Filter.make ([[1, 2, 3]] : Mat ℚ) 8000 true).data :=
  ⟨(C10_construction_transposes [[1, 2, 3]] [[8000], [1], [5]] 8000 true).2.1
      (by decide),
   by decide,
   (C10_construction_transposes [[1, 2, 3]] [[8000], [1], [5]] 8000 true).1⟩

end Slab
